import Mathlib

/-!
Shallow embedding of the oopsy custom-hardware code generator.

The generator translates a hardware-description document into a C++ source
artifact.  Each peripheral kind has a generator mapping a configuration list
and a phase (`Context`) to a text fragment; a composition driver assembles the
fragments into the final artifact.  JavaScript `forEach`/`push` accumulation is
modelled by `List.foldl` with list append, template literals by string
interpolation, and the in-place `driver_name` mutation of display entries by
explicit state passing (`generateOledDisplays` returns the updated list).
-/

namespace Oopsy

/-- Phases (code-gen locations) of the generator, from the `Context` enum. -/
inductive Context where
  | INCLUDE
  | DECLARATION
  | INITIALIZATION
  | PROCESSING
deriving DecidableEq, Repr

/-- JavaScript stringification of `!!x` for a boolean attribute. -/
def jsBool (b : Bool) : String := if b then "true" else "false"

/-- JavaScript interpolation of a possibly-absent string property. -/
def jsStr (v : Option String) : String :=
  match v with
  | some s => s
  | none => "undefined"

/-- One entry of `analog_controls` or `cv_inputs` (both are AnalogControl). -/
structure AnalogControl where
  pin : Nat := 0
  flip : Bool := false
  invert : Bool := false
  labels : List String := []
deriving DecidableEq, Repr

/-- One entry of `cv_outputs`; its attributes are never read by the generator. -/
structure CvOutput where
  pin : Nat := 0
  labels : List String := []
deriving DecidableEq, Repr

/-- One entry of `encoders`. -/
structure Encoder where
  pin_a : Nat := 0
  pin_b : Nat := 0
  pin_switch : Nat := 0
  labels : List String := []
deriving DecidableEq, Repr

/-- One entry of `switches`. -/
structure Switch where
  pin : Nat := 0
  type : String := ""
  polarity : String := ""
  pull : String := ""
  labels : List String := []
deriving DecidableEq, Repr

/-- One entry of `leds`. -/
structure Led where
  pin : Nat := 0
  invert : Bool := false
  labels : List String := []
deriving DecidableEq, Repr

/-- One entry of `rgb_leds`. -/
structure RgbLed where
  pin_r : Nat := 0
  pin_g : Nat := 0
  pin_b : Nat := 0
  invert : Bool := false
  labels : List String := []
deriving DecidableEq, Repr

/-- Nested `4_wire_spi_config` of a display entry. -/
structure FourWireSpiConfig where
  pin_dc : Nat := 0
  pin_reset : Nat := 0
deriving DecidableEq, Repr

/-- Nested `i2c_config` of a display entry. -/
structure I2cConfig where
  address : String := ""
  peripheral : String := ""
  speed : String := ""
  pin_sda : Nat := 0
  pin_scl : Nat := 0
deriving DecidableEq, Repr

/-- One entry of `oled_displays`.  `driver_name` is the derived field the
generator writes onto the entry; `none` models the property being absent. -/
structure OledDisplay where
  driver : String := ""
  transport : String := ""
  dimensions : String := ""
  four_wire_spi_config : FourWireSpiConfig := {}
  i2c_config : I2cConfig := {}
  driver_name : Option String := none
deriving DecidableEq, Repr

/-- One entry of `gate_inputs`. -/
structure GateInput where
  pin : Nat := 0
  labels : List String := []
deriving DecidableEq, Repr

/-- One entry of `gate_outputs`; never read by any generator. -/
structure GateOutput where
  pin : Nat := 0
  labels : List String := []
deriving DecidableEq, Repr

/-- One entry of `midi_handlers`; never read by any generator. -/
structure MidiHandler where
  pin : Nat := 0
  labels : List String := []
deriving DecidableEq, Repr

/-- The hardware-description document.  A `none` list models an absent
property (JavaScript `undefined`). -/
structure HardwareDescription where
  analog_controls : Option (List AnalogControl) := none
  cv_inputs : Option (List AnalogControl) := none
  cv_outputs : Option (List CvOutput) := none
  encoders : Option (List Encoder) := none
  gate_inputs : Option (List GateInput) := none
  gate_outputs : Option (List GateOutput) := none
  leds : Option (List Led) := none
  midi_handlers : Option (List MidiHandler) := none
  oled_displays : Option (List OledDisplay) := none
  rgb_leds : Option (List RgbLed) := none
  switches : Option (List Switch) := none
deriving DecidableEq, Repr

/-- Label alias line pushed by `generateAnalogControls` at DECLARATION. -/
def analogLabelLine (label : String) (idx : Nat) : String :=
  s!"AnalogControl& {label} = controls[{idx}];"

/-- Per-channel ADC config line of `generateAnalogControls` at INITIALIZATION. -/
def adcCfgLine (idx : Nat) (analog_control : AnalogControl) : String :=
  let pin := analog_control.pin
  s!"cfg[{idx}].InitSingle(seed.GetPin({pin}));"

/-- Per-entry wrapper init line of `generateAnalogControls` at INITIALIZATION. -/
def controlInitLine (idx : Nat) (analog_control : AnalogControl) : String :=
  let flip := jsBool analog_control.flip
  let invert := jsBool analog_control.invert
  s!"controls[{idx}].Init(seed.adc.GetPtr({idx}), seed.AudioCallbackRate(), {flip}, {invert});"

/-- Per-entry processing line of `generateAnalogControls` at PROCESSING. -/
def controlProcessLine (idx : Nat) : String :=
  s!"controls[{idx}].Process();"

/-- Lines of the analog DECLARATION fragment (the `code` array of the source). -/
def analogDeclCode (all_controls : List AnalogControl) : List String :=
  let n := all_controls.length
  let code := ["// analog_controls declaration", s!"AnalogControl controls[{n}];"]
  all_controls.enum.foldl (fun code p =>
    p.2.labels.foldl (fun code label => code ++ [analogLabelLine label p.1]) code) code

/-- Lines of the analog INITIALIZATION fragment (the `code` array of the source). -/
def analogInitCode (all_controls : List AnalogControl) : List String :=
  let n := all_controls.length
  let code := ["// BEGIN - analog_controls initialization", s!"AdcChannelConfig cfg[{n}];"]
  let code := all_controls.enum.foldl (fun code p => code ++ [adcCfgLine p.1 p.2]) code
  let code := code ++ [s!"seed.adc.Init(cfg, {n});"]
  let code := all_controls.enum.foldl (fun code p => code ++ [controlInitLine p.1 p.2]) code
  code ++ ["seed.adc.Start();", "// END - analog_controls initialization"]

/-- Lines of the analog PROCESSING fragment (the `code` array of the source). -/
def analogProcessCode (all_controls : List AnalogControl) : List String :=
  let code := ["// process analog_controls"]
  all_controls.enum.foldl (fun code p => code ++ [controlProcessLine p.1]) code

/-- `generateAnalogControls` from the source: `analog_controls` and `cv_inputs`
are concatenated into `all_controls` and share one array and index space. -/
def generateAnalogControls (analog_controls cv_inputs : Option (List AnalogControl))
    (context : Context) : String :=
  let all_controls := analog_controls.getD [] ++ cv_inputs.getD []
  if all_controls.isEmpty then "" else
  match context with
  | Context.DECLARATION => String.intercalate "\n    " (analogDeclCode all_controls)
  | Context.INITIALIZATION => String.intercalate "\n        " (analogInitCode all_controls)
  | Context.PROCESSING => String.intercalate "\n        " (analogProcessCode all_controls)
  | Context.INCLUDE => ""

/-- Fixed line list of the CV-output INITIALIZATION fragment. -/
def cvOutputsInitLines : List String :=
  ["// BEGIN - cv_outputs initialization",
   "DacHandle::Config dac_cfg;",
   "dac_cfg.bitdepth   = DacHandle::BitDepth::BITS_12;",
   "dac_cfg.buff_state = DacHandle::BufferState::ENABLED;",
   "dac_cfg.mode       = DacHandle::Mode::POLLING;",
   "dac_cfg.chn        = DacHandle::Channel::BOTH;",
   "seed.dac.Init(dac_cfg);",
   "seed.dac.WriteValue(DacHandle::Channel::BOTH, 0);",
   "// END - cv_outputs initialization"]

/-- `generateCvOutputs` from the source: the list is truncated to two entries
(only two DAC channels exist) and only INITIALIZATION contributes. -/
def generateCvOutputs (cv_outputs : Option (List CvOutput)) (context : Context) : String :=
  let cv_outputs := cv_outputs.getD []
  if cv_outputs.isEmpty then "" else
  let cv_outputs := if cv_outputs.length > 2 then cv_outputs.take 2 else cv_outputs
  match context with
  | Context.INITIALIZATION => String.intercalate "\n        " cvOutputsInitLines
  | _ => ""

/-- Label alias line pushed by `generateEncoders` at DECLARATION. -/
def encoderLabelLine (label : String) (idx : Nat) : String :=
  s!"Encoder& {label} = encoders[{idx}];"

/-- Per-entry init line of `generateEncoders` at INITIALIZATION. -/
def encoderInitLine (idx : Nat) (encoder : Encoder) : String :=
  let a := encoder.pin_a
  let b := encoder.pin_b
  let sw := encoder.pin_switch
  s!"encoders[{idx}].Init(seed.GetPin({a}), seed.GetPin({b}), seed.GetPin({sw}), seed.AudioCallbackRate());"

/-- Per-entry processing line of `generateEncoders` at PROCESSING. -/
def encoderProcessLine (idx : Nat) : String :=
  s!"encoders[{idx}].Debounce();"

/-- Lines of the encoder DECLARATION fragment. -/
def encoderDeclCode (encoders : List Encoder) : List String :=
  let n := encoders.length
  let code := ["//  encoders declaration", s!"Encoder encoders[{n}];",
               "Encoder& encoder = encoders[0];"]
  encoders.enum.foldl (fun code p =>
    p.2.labels.foldl (fun code label => code ++ [encoderLabelLine label p.1]) code) code

/-- Lines of the encoder INITIALIZATION fragment. -/
def encoderInitCode (encoders : List Encoder) : List String :=
  let code := ["// BEGIN - encoders initialization"]
  let code := encoders.enum.foldl (fun code p => code ++ [encoderInitLine p.1 p.2]) code
  code ++ ["// END - encoders initialization"]

/-- Lines of the encoder PROCESSING fragment. -/
def encoderProcessCode (encoders : List Encoder) : List String :=
  let code := ["// process encoders"]
  encoders.enum.foldl (fun code p => code ++ [encoderProcessLine p.1]) code

/-- `generateEncoders` from the source. -/
def generateEncoders (encoders : Option (List Encoder)) (context : Context) : String :=
  let encoders := encoders.getD []
  if encoders.isEmpty then "" else
  match context with
  | Context.DECLARATION => String.intercalate "\n    " (encoderDeclCode encoders)
  | Context.INITIALIZATION => String.intercalate "\n        " (encoderInitCode encoders)
  | Context.PROCESSING => String.intercalate "\n        " (encoderProcessCode encoders)
  | Context.INCLUDE => ""

/-- Label alias line pushed by `generateSwitches` at DECLARATION. -/
def switchLabelLine (label : String) (idx : Nat) : String :=
  s!"Switch& {label} = switches[{idx}];"

/-- Per-entry init line of `generateSwitches` at INITIALIZATION; the three
enumerated attributes are passed through verbatim. -/
def switchInitLine (idx : Nat) (sw : Switch) : String :=
  let pin := sw.pin
  let ty := sw.type
  let polarity := sw.polarity
  let pull := sw.pull
  s!"switches[{idx}].Init(seed.GetPin({pin}), seed.AudioCallbackRate(), Switch::Type::{ty}, Switch::Polarity::{polarity}, Switch::Pull::{pull});"

/-- Per-entry processing line of `generateSwitches` at PROCESSING. -/
def switchProcessLine (idx : Nat) : String :=
  s!"switches[{idx}].Debounce();"

/-- Lines of the switch DECLARATION fragment. -/
def switchDeclCode (switches : List Switch) : List String :=
  let n := switches.length
  let code := ["//  switches declaration", s!"Switch switches[{n}];"]
  switches.enum.foldl (fun code p =>
    p.2.labels.foldl (fun code label => code ++ [switchLabelLine label p.1]) code) code

/-- Lines of the switch INITIALIZATION fragment. -/
def switchInitCode (switches : List Switch) : List String :=
  let code := ["// BEGIN - switches initialization"]
  let code := switches.enum.foldl (fun code p => code ++ [switchInitLine p.1 p.2]) code
  code ++ ["// END - switches initialization"]

/-- Lines of the switch PROCESSING fragment. -/
def switchProcessCode (switches : List Switch) : List String :=
  let code := ["// process switches"]
  switches.enum.foldl (fun code p => code ++ [switchProcessLine p.1]) code

/-- `generateSwitches` from the source. -/
def generateSwitches (switches : Option (List Switch)) (context : Context) : String :=
  let switches := switches.getD []
  if switches.isEmpty then "" else
  match context with
  | Context.DECLARATION => String.intercalate "\n    " (switchDeclCode switches)
  | Context.INITIALIZATION => String.intercalate "\n        " (switchInitCode switches)
  | Context.PROCESSING => String.intercalate "\n        " (switchProcessCode switches)
  | Context.INCLUDE => ""

/-- Label alias line pushed by `generateLeds` at DECLARATION. -/
def ledLabelLine (label : String) (idx : Nat) : String :=
  s!"Led& {label} = leds[{idx}];"

/-- Per-entry init line of `generateLeds` at INITIALIZATION. -/
def ledInitLine (idx : Nat) (led : Led) : String :=
  let pin := led.pin
  let invert := jsBool led.invert
  s!"leds[{idx}].Init(seed.GetPin({pin}), {invert});"

/-- Per-entry processing line of `generateLeds` at PROCESSING. -/
def ledProcessLine (idx : Nat) : String :=
  s!"leds[{idx}].Update();"

/-- Lines of the LED DECLARATION fragment. -/
def ledDeclCode (leds : List Led) : List String :=
  let n := leds.length
  let code := ["//  leds declaration", s!"Led leds[{n}];"]
  leds.enum.foldl (fun code p =>
    p.2.labels.foldl (fun code label => code ++ [ledLabelLine label p.1]) code) code

/-- Lines of the LED INITIALIZATION fragment. -/
def ledInitCode (leds : List Led) : List String :=
  let code := ["// BEGIN - leds initialization"]
  let code := leds.enum.foldl (fun code p => code ++ [ledInitLine p.1 p.2]) code
  code ++ ["// END - leds initialization"]

/-- Lines of the LED PROCESSING fragment. -/
def ledProcessCode (leds : List Led) : List String :=
  let code := ["// process leds"]
  leds.enum.foldl (fun code p => code ++ [ledProcessLine p.1]) code

/-- `generateLeds` from the source. -/
def generateLeds (leds : Option (List Led)) (context : Context) : String :=
  let leds := leds.getD []
  if leds.isEmpty then "" else
  match context with
  | Context.DECLARATION => String.intercalate "\n    " (ledDeclCode leds)
  | Context.INITIALIZATION => String.intercalate "\n        " (ledInitCode leds)
  | Context.PROCESSING => String.intercalate "\n        " (ledProcessCode leds)
  | Context.INCLUDE => ""

/-- Label alias line pushed by `generateRgbLeds` at DECLARATION. -/
def rgbLedLabelLine (label : String) (idx : Nat) : String :=
  s!"RgbLed& {label} = rgb_leds[{idx}];"

/-- Per-entry init line of `generateRgbLeds` at INITIALIZATION. -/
def rgbLedInitLine (idx : Nat) (rgb_led : RgbLed) : String :=
  let r := rgb_led.pin_r
  let g := rgb_led.pin_g
  let b := rgb_led.pin_b
  let invert := jsBool rgb_led.invert
  s!"rgb_leds[{idx}].Init(seed.GetPin({r}), seed.GetPin({g}), seed.GetPin({b}), {invert});"

/-- Per-entry processing line of `generateRgbLeds` at PROCESSING. -/
def rgbLedProcessLine (idx : Nat) : String :=
  s!"rgb_leds[{idx}].Update();"

/-- Lines of the RGB LED DECLARATION fragment. -/
def rgbLedDeclCode (rgb_leds : List RgbLed) : List String :=
  let n := rgb_leds.length
  let code := ["//  rgb_leds declaration", s!"RgbLed rgb_leds[{n}];"]
  rgb_leds.enum.foldl (fun code p =>
    p.2.labels.foldl (fun code label => code ++ [rgbLedLabelLine label p.1]) code) code

/-- Lines of the RGB LED INITIALIZATION fragment. -/
def rgbLedInitCode (rgb_leds : List RgbLed) : List String :=
  let code := ["// BEGIN - rgb_leds initialization"]
  let code := rgb_leds.enum.foldl (fun code p => code ++ [rgbLedInitLine p.1 p.2]) code
  code ++ ["// END - rgb_leds initialization"]

/-- Lines of the RGB LED PROCESSING fragment. -/
def rgbLedProcessCode (rgb_leds : List RgbLed) : List String :=
  let code := ["// process rgb_leds"]
  rgb_leds.enum.foldl (fun code p => code ++ [rgbLedProcessLine p.1]) code

/-- `generateRgbLeds` from the source. -/
def generateRgbLeds (rgb_leds : Option (List RgbLed)) (context : Context) : String :=
  let rgb_leds := rgb_leds.getD []
  if rgb_leds.isEmpty then "" else
  match context with
  | Context.DECLARATION => String.intercalate "\n    " (rgbLedDeclCode rgb_leds)
  | Context.INITIALIZATION => String.intercalate "\n        " (rgbLedInitCode rgb_leds)
  | Context.PROCESSING => String.intercalate "\n        " (rgbLedProcessCode rgb_leds)
  | Context.INCLUDE => ""

/-- Driver-name derivation of `generateOledDisplays`:
`[driver, transport, dimensions, "Driver"].join("")`. -/
def deriveDriverName (oled_display : OledDisplay) : String :=
  String.join [oled_display.driver, oled_display.transport, oled_display.dimensions, "Driver"]

/-- The in-place `forEach` mutation writing `driver_name` onto each entry. -/
def setDriverNames (oled_displays : List OledDisplay) : List OledDisplay :=
  oled_displays.map fun oled_display =>
    { oled_display with driver_name := some (deriveDriverName oled_display) }

/-- Naming convention: index 0 yields no suffix, index > 0 yields the index
(the `(idx === 0) ? "" : idx` ternary of the source). -/
def displaySuffix (idx : Nat) : String :=
  if idx == 0 then "" else toString idx

/-- Per-entry declaration line of `generateOledDisplays` at DECLARATION. -/
def oledDeclLine (idx : Nat) (oled_display : OledDisplay) : String :=
  let dn := jsStr oled_display.driver_name
  let suffix := displaySuffix idx
  s!"OledDisplay<{dn}> display{suffix};"

/-- Final per-entry `Init` call line of `generateOledDisplays` at
INITIALIZATION: the display variable follows the naming convention, the
config variable is always index-suffixed. -/
def oledInitCallLine (idx : Nat) : String :=
  let suffix := displaySuffix idx
  s!"display{suffix}.Init(display_config{idx});"

/-- Lines pushed for one display entry at INITIALIZATION: marker, config
declaration, transport-dependent config lines, final `Init` call. -/
def oledInitEntryLines (idx : Nat) (oled_display : OledDisplay) : List String :=
  let dn := jsStr oled_display.driver_name
  let branch :=
    if oled_display.transport == "4WireSpi" then
      let dc := oled_display.four_wire_spi_config.pin_dc
      let reset := oled_display.four_wire_spi_config.pin_reset
      [s!"display_config{idx}.driver_config.transport_config.pin_config.dc = seed.GetPin({dc});",
       s!"display_config{idx}.driver_config.transport_config.pin_config.reset = seed.GetPin({reset});"]
    else if oled_display.transport == "I2c" then
      let address := oled_display.i2c_config.address
      let periph := oled_display.i2c_config.peripheral
      let speed := oled_display.i2c_config.speed
      let sda := oled_display.i2c_config.pin_sda
      let scl := oled_display.i2c_config.pin_scl
      [s!"display_config{idx}.driver_config.transport_config.i2c_address = {address};",
       s!"display_config{idx}.driver_config.transport_config.i2c_config.periph = I2CHandle::Config::Peripheral::{periph};",
       s!"display_config{idx}.driver_config.transport_config.i2c_config.speed = I2CHandle::Config::Speed::{speed};",
       s!"display_config{idx}.driver_config.transport_config.i2c_config.pin_config.sda = seed.GetPin({sda});",
       s!"display_config{idx}.driver_config.transport_config.i2c_config.pin_config.scl = seed.GetPin({scl});"]
    else []
  [s!"// Display {idx}", s!"OledDisplay<{dn}>::Config display_config{idx};"]
    ++ branch ++ [oledInitCallLine idx]

/-- Lines of the display DECLARATION fragment. -/
def oledDeclCode (oled_displays : List OledDisplay) : List String :=
  let code := ["// OLED display declaration"]
  oled_displays.enum.foldl (fun code p => code ++ [oledDeclLine p.1 p.2]) code

/-- Lines of the display INITIALIZATION fragment. -/
def oledInitCode (oled_displays : List OledDisplay) : List String :=
  let code := ["// BEGIN - OLED display initialization"]
  let code := oled_displays.enum.foldl (fun code p => code ++ oledInitEntryLines p.1 p.2) code
  code ++ ["// END - OLED display initialization"]

/-- `generateOledDisplays` from the source.  The JavaScript version mutates
each entry in place (`oled_display.driver_name = ...`) before branching on the
context; here the mutation is returned as the second component so that the
aliasing of the input document's array is explicit. -/
def generateOledDisplays (oled_displays : Option (List OledDisplay)) (context : Context) :
    String × Option (List OledDisplay) :=
  match oled_displays with
  | none => ("", none)
  | some ds =>
    if ds.isEmpty then ("", some ds) else
    let ds := setDriverNames ds
    let frag :=
      match context with
      | Context.INCLUDE =>
        if ds.any (fun oled_display => oled_display.driver == "SSD130x") then
          "#include \"dev/oled_ssd130x.h\"\n"
        else ""
      | Context.DECLARATION => String.intercalate "\n    " (oledDeclCode ds)
      | Context.INITIALIZATION => String.intercalate "\n        " (oledInitCode ds)
      | Context.PROCESSING => ""
    (frag, some ds)

/-- Label alias line pushed by `generateGateInputs` at DECLARATION. -/
def gateInputLabelLine (label : String) (idx : Nat) : String :=
  s!"GateIn& {label} = gate_inputs[{idx}];"

/-- Lines of the gate-input DECLARATION fragment. -/
def gateInputDeclCode (gate_inputs : List GateInput) : List String :=
  let n := gate_inputs.length
  let code := ["//gate_inputs declaration", s!"GateIn gate_inputs[{n}];"]
  gate_inputs.enum.foldl (fun code p =>
    p.2.labels.foldl (fun code label => code ++ [gateInputLabelLine label p.1]) code) code

/-- Lines pushed for one gate-input entry at INITIALIZATION: the transient
pin handle is re-assigned, then the stable entry is initialized against it. -/
def gateInputInitEntryLines (idx : Nat) (gate_input : GateInput) : List String :=
  let pin := gate_input.pin
  [s!"gate_input_pin = seed.GetPin({pin});", s!"gate_inputs[{idx}].Init(&gate_input_pin);"]

/-- Lines of the gate-input INITIALIZATION fragment. -/
def gateInputInitCode (gate_inputs : List GateInput) : List String :=
  let code := ["// BEGIN - gate_inputs initialization", "dsy_gpio_pin gate_input_pin;"]
  let code := gate_inputs.enum.foldl (fun code p => code ++ gateInputInitEntryLines p.1 p.2) code
  code ++ ["// END -  gate_inputs initialization"]

/-- `generateGateInputs` from the source; PROCESSING contributes nothing. -/
def generateGateInputs (gate_inputs : Option (List GateInput)) (context : Context) : String :=
  let gate_inputs := gate_inputs.getD []
  if gate_inputs.isEmpty then "" else
  match context with
  | Context.DECLARATION => String.intercalate "\n    " (gateInputDeclCode gate_inputs)
  | Context.INITIALIZATION => String.intercalate "\n        " (gateInputInitCode gate_inputs)
  | _ => ""

/-- `generateGateOutputs` from the source: a placeholder that ignores its
arguments entirely and returns the empty fragment. -/
def generateGateOutputs {α : Type} (gate_outputs : α) (context : Context) : String :=
  ""

/-- `generateMidiHandlers` from the source: a placeholder that ignores its
arguments entirely and returns the empty fragment (its parameter is even
named `gate_outputs` in the source). -/
def generateMidiHandlers {α : Type} (gate_outputs : α) (context : Context) : String :=
  ""

/-- `generateCustomHardwareImpl` from the source: assembles the C++ template,
invoking the generators in the template's textual order.  The three
`generateOledDisplays` calls see the same underlying array in the source, so
the mutated list is threaded from call to call and returned as the updated
document (second component).  Note the source passes `gate_inputs` (not
`gate_outputs`) to `generateGateOutputs` at both DECLARATION and
INITIALIZATION. -/
def generateCustomHardwareImpl (hardware_description : HardwareDescription) :
    String × HardwareDescription :=
  let oledIncludeR := generateOledDisplays hardware_description.oled_displays Context.INCLUDE
  let oledInclude := oledIncludeR.1
  let analogControlsDecl := generateAnalogControls hardware_description.analog_controls
    hardware_description.cv_inputs Context.DECLARATION
  let cvOutputsDecl := generateCvOutputs hardware_description.cv_outputs Context.DECLARATION
  let encodersDecl := generateEncoders hardware_description.encoders Context.DECLARATION
  let gateInputsDecl := generateGateInputs hardware_description.gate_inputs Context.DECLARATION
  let gateOutputsDecl := generateGateOutputs hardware_description.gate_inputs Context.DECLARATION
  let ledsDecl := generateLeds hardware_description.leds Context.DECLARATION
  let midiHandlersDecl := generateMidiHandlers hardware_description.midi_handlers Context.DECLARATION
  let oledDeclR := generateOledDisplays oledIncludeR.2 Context.DECLARATION
  let oledDecl := oledDeclR.1
  let rgbLedsDecl := generateRgbLeds hardware_description.rgb_leds Context.DECLARATION
  let switchesDecl := generateSwitches hardware_description.switches Context.DECLARATION
  let analogControlsInit := generateAnalogControls hardware_description.analog_controls
    hardware_description.cv_inputs Context.INITIALIZATION
  let cvOutputsInit := generateCvOutputs hardware_description.cv_outputs Context.INITIALIZATION
  let gateInputsInit := generateGateInputs hardware_description.gate_inputs Context.INITIALIZATION
  let gateOutputsInit := generateGateOutputs hardware_description.gate_inputs Context.INITIALIZATION
  let encodersInit := generateEncoders hardware_description.encoders Context.INITIALIZATION
  let ledsInit := generateLeds hardware_description.leds Context.INITIALIZATION
  let midiHandlersInit := generateMidiHandlers hardware_description.midi_handlers Context.INITIALIZATION
  let oledInitR := generateOledDisplays oledDeclR.2 Context.INITIALIZATION
  let oledInit := oledInitR.1
  let rgbLedsInit := generateRgbLeds hardware_description.rgb_leds Context.INITIALIZATION
  let switchesInit := generateSwitches hardware_description.switches Context.INITIALIZATION
  let analogControlsProc := generateAnalogControls hardware_description.analog_controls
    hardware_description.cv_inputs Context.PROCESSING
  let encodersProc := generateEncoders hardware_description.encoders Context.PROCESSING
  let switchesProc := generateSwitches hardware_description.switches Context.PROCESSING
  let ledsProc := generateLeds hardware_description.leds Context.PROCESSING
  let rgbLedsProc := generateRgbLeds hardware_description.rgb_leds Context.PROCESSING
  let hardware_implementation :=
    s!"\n\n#include \"daisy_seed.h\"\n{oledInclude}\n\nusing namespace daisy;\n\ntypedef struct \x7b\n    DaisySeed seed;\n  \n    {analogControlsDecl}\n\n    {cvOutputsDecl}\n    \n    {encodersDecl}\n\n    {gateInputsDecl}\n\n    {gateOutputsDecl}\n\n    {ledsDecl}\n\n    {midiHandlersDecl}\n\n    {oledDecl}\n    \n    {rgbLedsDecl}\n\n    {switchesDecl}\n\n    void Init(bool boost) \n    \x7b\n        seed.Configure();\n        seed.Init(boost);\n\n        {analogControlsInit}\n        \n        {cvOutputsInit}\n\n        {gateInputsInit}\n\n        {gateOutputsInit}\n\n        {encodersInit}\n\n        {ledsInit}\n\n        {midiHandlersInit}\n\n        {oledInit}\n\n        {rgbLedsInit}\n\n        {switchesInit}\n    \x7d\n\n    void ProcessAnalogControls()\n    \x7b\n        {analogControlsProc}\n    \x7d\n\n    void ProcessDigitalControls()\n    \x7b\n        {encodersProc}\n\n        {switchesProc}\n    \x7d\n\n    inline void ProcessAllControls()\n    \x7b\n        ProcessAnalogControls();\n        ProcessDigitalControls();\n    \x7d\n\n    void UpdateLeds()\n    \x7b\n      {ledsProc}\n      {rgbLedsProc}\n    \x7d\n\n  \x7d Daisy;\n  "
  (hardware_implementation, { hardware_description with oled_displays := oledInitR.2 })

/-- Index of the first occurrence of `pat` in a character list, if any. -/
def subseqPos (pat : List Char) : List Char → Option Nat
  | [] => if pat.isEmpty then some 0 else none
  | c :: rest =>
    if pat.isPrefixOf (c :: rest) then some 0
    else (subseqPos pat rest).map (fun k => k + 1)

/-- Index of the first occurrence of `pat` in the string `s`, if any. -/
def strPos (s pat : String) : Option Nat :=
  subseqPos pat.data s.data

/-- `a` and `b` both occur in `s`, and the first occurrence of `a` is strictly
before the first occurrence of `b`. -/
def ltPos (s a b : String) : Bool :=
  match strPos s a, strPos s b with
  | some i, some j => decide (i < j)
  | _, _ => false

/-- Interleaving of separator texts and fragments:
`interleave [s0, s1, ..., sn] [f1, ..., fn] = s0 ++ f1 ++ s1 ++ ... ++ fn ++ sn`. -/
def interleave : List String → List String → String
  | [], _ => ""
  | s :: srest, [] => String.join (s :: srest)
  | s :: srest, f :: frest => s ++ f ++ interleave srest frest

/-- The string `s` contains the given fragments, in the given textual order:
it decomposes as surrounding texts interleaved with exactly those fragments. -/
def containsInOrder (s : String) (frags : List String) : Prop :=
  ∃ seps : List String, seps.length = frags.length + 1 ∧ s = interleave seps frags

/-- Concrete analog-control list used by witnesses. -/
def acW : List AnalogControl := [{pin := 10, labels := ["knob"]}, {pin := 11}]

/-- Concrete CV-input list used by witnesses. -/
def cvW : List AnalogControl := [{pin := 20, flip := true}]

/-- Concrete switch list used by witnesses. -/
def swW : List Switch := [{pin := 1, labels := ["foo"]}]

/-- Concrete display list used by witnesses. -/
def dsW : List OledDisplay :=
  [{driver := "SSD130x", transport := "I2c", dimensions := "128x64"},
   {driver := "SSD130x", transport := "4WireSpi", dimensions := "64x32"}]

/-- Concrete five-entry CV-output list (with distinct attributes) for the
truncation witness. -/
def cvoW5 : List CvOutput :=
  [{pin := 1}, {pin := 2, labels := ["x"]}, {pin := 3}, {pin := 4}, {pin := 5}]

/-- Concrete two-entry CV-output list for the truncation witness. -/
def cvoW2 : List CvOutput := [{pin := 6, labels := ["a"]}, {pin := 7}]

/-- Concrete document with one encoder and one gate input, exhibiting the
relative order of the encoder and gate-input fragments. -/
def hdC3 : HardwareDescription :=
  { encoders := some [{pin_a := 1, pin_b := 2, pin_switch := 3}],
    gate_inputs := some [{pin := 4}] }

/-- Artifact generated from `hdC3`. -/
def outC3 : String := (generateCustomHardwareImpl hdC3).1

theorem foldl_push_eq {α β : Type} (g : α → β) :
    ∀ (l : List α) (init : List β),
      l.foldl (fun acc a => acc ++ [g a]) init = init ++ l.map g := by
  intro l
  induction l with
  | nil => intro init; simp
  | cons a t ih => intro init; simp [ih, List.append_assoc]

theorem foldl_append_eq {α β : Type} (f : α → List β) :
    ∀ (l : List α) (init : List β),
      l.foldl (fun acc a => acc ++ f a) init = init ++ (l.map f).flatten := by
  intro l
  induction l with
  | nil => intro init; simp
  | cons a t ih => intro init; simp [ih, List.append_assoc]

theorem enumFrom_getElem {α : Type} (l : List α) :
    ∀ (n i : Nat), (l.enumFrom n)[i]? = l[i]?.map (fun a => (n + i, a)) := by
  induction l with
  | nil => intro n i; simp [List.enumFrom]
  | cons a t ih =>
    intro n i
    cases i with
    | zero => simp [List.enumFrom]
    | succ i =>
      have h : n + 1 + i = n + (i + 1) := by omega
      simp [List.enumFrom, ih (n + 1) i, h]

theorem enum_getElem {α : Type} (l : List α) (i : Nat) :
    l.enum[i]? = l[i]?.map (fun a => (i, a)) := by
  simp [List.enum, enumFrom_getElem]

/-- C5: the derived driver-name identifier is the character-for-character
concatenation of driver, transport and dimensions followed by the fixed
suffix "Driver", with no normalization; the entry
`{driver:"SSD130x", transport:"I2c", dimensions:"128x64"}` yields exactly
`SSD130xI2c128x64Driver`, and the derived name is what `setDriverNames`
writes onto the entry. -/
theorem driver_name_is_plain_concatenation (oled_display : OledDisplay) :
    deriveDriverName oled_display =
      oled_display.driver ++ oled_display.transport ++ oled_display.dimensions ++ "Driver"
    ∧ deriveDriverName { driver := "SSD130x", transport := "I2c", dimensions := "128x64" } =
        "SSD130xI2c128x64Driver"
    ∧ setDriverNames [oled_display] =
        [{ oled_display with driver_name := some (deriveDriverName oled_display) }] := by
  refine ⟨rfl, rfl, rfl⟩

/-- C8: the gate-output generator and the MIDI-handler generator produce the
empty fragment at every phase, for every entries list. -/
theorem placeholder_kinds_always_empty (gate_outputs : Option (List GateOutput))
    (midi_handlers : Option (List MidiHandler)) (context : Context) :
    generateGateOutputs gate_outputs context = "" ∧
    generateMidiHandlers midi_handlers context = "" :=
  ⟨rfl, rfl⟩

/-- C10: two hardware descriptions that differ only in their `gate_outputs`
and `midi_handlers` lists generate byte-identical artifacts: the driver passes
`gate_inputs` to the gate-output generator, both placeholder generators ignore
their arguments, and nothing in the output reads those two lists. -/
theorem artifact_ignores_gate_outputs_and_midi_handlers
    (hd : HardwareDescription) (go : Option (List GateOutput))
    (mh : Option (List MidiHandler)) :
    (generateCustomHardwareImpl
        { hd with gate_outputs := go, midi_handlers := mh }).1 =
      (generateCustomHardwareImpl hd).1 := by
  rfl

/-- C2: for every cv_outputs list with more than two entries the generator
emits exactly the one fixed two-channel initialization fragment (12-bit,
buffered, polling, both channels), byte-identical to the fragment for any
two-entry list; the excess entries and all per-entry attributes are not
reflected in the output and cause no error. -/
theorem cv_outputs_truncated_to_fixed_fragment (cv_outputs cv2 : List CvOutput)
    (h : 2 < cv_outputs.length) (h2 : cv2.length = 2) :
    generateCvOutputs (some cv_outputs) Context.INITIALIZATION =
        generateCvOutputs (some cv2) Context.INITIALIZATION
    ∧ generateCvOutputs (some cv_outputs) Context.INITIALIZATION =
        String.intercalate "\n        " cvOutputsInitLines := by
  have hne : cv_outputs.isEmpty = false := by
    cases cv_outputs with
    | nil => simp at h
    | cons a t => rfl
  have hne2 : cv2.isEmpty = false := by
    cases cv2 with
    | nil => simp at h2
    | cons a t => rfl
  constructor <;> simp [generateCvOutputs, hne, hne2]

theorem cv_outputs_truncated_to_fixed_fragment_witness :
    2 < cvoW5.length ∧ cvoW2.length = 2 ∧
    generateCvOutputs (some cvoW5) Context.INITIALIZATION =
      generateCvOutputs (some cvoW2) Context.INITIALIZATION := by
  refine ⟨by decide, by decide, ?_⟩
  exact (cv_outputs_truncated_to_fixed_fragment cvoW5 cvoW2 (by decide) (by decide)).1

/-- C7: every peripheral generator returns a (possibly empty) string at every
phase — totality is expressed by the generators being total Lean functions
into `String`, mirroring the source's trailing `return ""` in every generator.
An empty or missing list yields the empty fragment at every phase, and a
phase to which a kind contributes nothing (analog controls at INCLUDE, CV
outputs outside INITIALIZATION, gate inputs at PROCESSING, displays at
PROCESSING, ...) yields the empty fragment for every entries list. -/
theorem generators_empty_fragment_policy (context : Context) :
    (generateAnalogControls none none context = ""
      ∧ generateAnalogControls (some []) (some []) context = "")
    ∧ (generateCvOutputs none context = "" ∧ generateCvOutputs (some []) context = "")
    ∧ (generateEncoders none context = "" ∧ generateEncoders (some []) context = "")
    ∧ (generateSwitches none context = "" ∧ generateSwitches (some []) context = "")
    ∧ (generateLeds none context = "" ∧ generateLeds (some []) context = "")
    ∧ (generateRgbLeds none context = "" ∧ generateRgbLeds (some []) context = "")
    ∧ ((generateOledDisplays none context).1 = ""
      ∧ (generateOledDisplays (some []) context).1 = "")
    ∧ (generateGateInputs none context = "" ∧ generateGateInputs (some []) context = "")
    ∧ (generateGateOutputs (none : Option (List GateOutput)) context = ""
      ∧ generateGateOutputs (some ([] : List GateOutput)) context = "")
    ∧ (generateMidiHandlers (none : Option (List MidiHandler)) context = ""
      ∧ generateMidiHandlers (some ([] : List MidiHandler)) context = "")
    ∧ (∀ analog_controls cv_inputs,
        generateAnalogControls analog_controls cv_inputs Context.INCLUDE = "")
    ∧ (∀ cv_outputs, generateCvOutputs cv_outputs Context.INCLUDE = ""
        ∧ generateCvOutputs cv_outputs Context.DECLARATION = ""
        ∧ generateCvOutputs cv_outputs Context.PROCESSING = "")
    ∧ (∀ encoders, generateEncoders encoders Context.INCLUDE = "")
    ∧ (∀ switches, generateSwitches switches Context.INCLUDE = "")
    ∧ (∀ leds, generateLeds leds Context.INCLUDE = "")
    ∧ (∀ rgb_leds, generateRgbLeds rgb_leds Context.INCLUDE = "")
    ∧ (∀ oled_displays, (generateOledDisplays oled_displays Context.PROCESSING).1 = "")
    ∧ (∀ gate_inputs, generateGateInputs gate_inputs Context.INCLUDE = ""
        ∧ generateGateInputs gate_inputs Context.PROCESSING = "") := by
  refine ⟨⟨rfl, rfl⟩, ⟨rfl, rfl⟩, ⟨rfl, rfl⟩, ⟨rfl, rfl⟩, ⟨rfl, rfl⟩, ⟨rfl, rfl⟩,
    ⟨rfl, rfl⟩, ⟨rfl, rfl⟩, ⟨rfl, rfl⟩, ⟨rfl, rfl⟩,
    fun a b => by simp [generateAnalogControls],
    fun c => ⟨by simp [generateCvOutputs], by simp [generateCvOutputs],
      by simp [generateCvOutputs]⟩,
    fun e => by simp [generateEncoders],
    fun s => by simp [generateSwitches],
    fun l => by simp [generateLeds],
    fun r => by simp [generateRgbLeds],
    fun o => by
      cases o with
      | none => rfl
      | some ds => rcases eq_or_ne ds [] with h | h <;> simp [generateOledDisplays, h],
    fun g => ⟨by simp [generateGateInputs], by simp [generateGateInputs]⟩⟩

theorem setDriverNames_idem (ds : List OledDisplay) :
    setDriverNames (setDriverNames ds) = setDriverNames ds := by
  unfold setDriverNames
  rw [List.map_map]
  exact List.map_congr_left fun d _ => rfl

theorem generateOledDisplays_restart (o : Option (List OledDisplay)) (c c' : Context) :
    generateOledDisplays (generateOledDisplays o c).2 c' = generateOledDisplays o c' := by
  cases o with
  | none => rfl
  | some ds =>
    by_cases h : ds.isEmpty
    · simp [generateOledDisplays, h]
    · have h2 : (setDriverNames ds).isEmpty = false := by
        cases ds with
        | nil => simp at h
        | cons a t => rfl
      simp [generateOledDisplays, h, h2, setDriverNames_idem]

/-- C4: generating twice in sequence from the same document (the second run
consuming the document as mutated by the first, including the `driver_name`
fields written onto the display entries) yields byte-identical output: the
driver-name derivation is recomputed from driver/transport/dimensions on
every invocation. -/
theorem generation_idempotent (hd : HardwareDescription) :
    (generateCustomHardwareImpl (generateCustomHardwareImpl hd).2).1 =
      (generateCustomHardwareImpl hd).1 := by
  simp [generateCustomHardwareImpl, generateOledDisplays_restart]

theorem getElem?_skip {β : Type} (A B : List β) (k : Nat) :
    (A ++ B)[A.length + k]? = B[k]? := by
  rw [List.getElem?_append_right (Nat.le_add_right _ _)]
  simp

theorem map_enum_getElem {α β : Type} (l : List α) (f : Nat × α → β) (i : Nat)
    (h : i < l.length) :
    (l.enum.map f)[i]? = some (f (i, l[i])) := by
  simp [List.getElem?_map, enum_getElem, List.getElem?_eq_getElem h]

theorem analogDeclCode_eq (l : List AnalogControl) :
    analogDeclCode l =
      ["// analog_controls declaration",
       "AnalogControl controls[" ++ toString l.length ++ "];"]
      ++ (l.enum.map (fun p =>
            p.2.labels.map (fun label => analogLabelLine label p.1))).flatten := by
  unfold analogDeclCode
  simp only [foldl_push_eq, foldl_append_eq]
  rfl

theorem analogInitCode_eq (l : List AnalogControl) :
    analogInitCode l =
      ["// BEGIN - analog_controls initialization",
       "AdcChannelConfig cfg[" ++ toString l.length ++ "];"]
      ++ (l.enum.map (fun p => adcCfgLine p.1 p.2)
      ++ (["seed.adc.Init(cfg, " ++ toString l.length ++ ");"]
      ++ (l.enum.map (fun p => controlInitLine p.1 p.2)
      ++ ["seed.adc.Start();", "// END - analog_controls initialization"]))) := by
  unfold analogInitCode
  simp only [foldl_push_eq]
  simp [List.append_assoc]
  constructor <;> rfl

theorem analogProcessCode_eq (l : List AnalogControl) :
    analogProcessCode l =
      ["// process analog_controls"] ++ l.enum.map (fun p => controlProcessLine p.1) := by
  unfold analogProcessCode
  simp only [foldl_push_eq]

theorem analogInitCode_region (l : List AnalogControl) (k : Nat) (hk : k < l.length) :
    (analogInitCode l)[2 + k]? = some (adcCfgLine k l[k])
    ∧ (analogInitCode l)[3 + l.length + k]? = some (controlInitLine k l[k]) := by
  rw [analogInitCode_eq]
  set A2 := ["// BEGIN - analog_controls initialization",
    "AdcChannelConfig cfg[" ++ toString l.length ++ "];"] with hA2
  set B := l.enum.map (fun p => adcCfgLine p.1 p.2) with hB
  set C1 := ["seed.adc.Init(cfg, " ++ toString l.length ++ ");"] with hC1
  set D := l.enum.map (fun p => controlInitLine p.1 p.2) with hD
  set E2 := ["seed.adc.Start();", "// END - analog_controls initialization"] with hE2
  have hBlen : B.length = l.length := by rw [hB]; simp
  have hDlen : D.length = l.length := by rw [hD]; simp
  constructor
  · have h1 : 2 + k = A2.length + k := by simp [hA2]
    rw [h1, getElem?_skip A2 (B ++ (C1 ++ (D ++ E2))) k]
    rw [@List.getElem?_append_left String B (C1 ++ (D ++ E2)) k (by rw [hBlen]; exact hk)]
    rw [hB]
    exact map_enum_getElem l _ k hk
  · have h1 : 3 + l.length + k = A2.length + (l.length + (1 + k)) := by simp [hA2]; omega
    rw [h1, getElem?_skip A2 (B ++ (C1 ++ (D ++ E2))) (l.length + (1 + k))]
    rw [@List.getElem?_append_right String B (C1 ++ (D ++ E2)) (l.length + (1 + k))
      (by rw [hBlen]; omega)]
    have h2 : l.length + (1 + k) - B.length = C1.length + k := by
      rw [hBlen]; simp [hC1]
    rw [h2, getElem?_skip C1 (D ++ E2) k]
    rw [@List.getElem?_append_left String D E2 k (by rw [hDlen]; exact hk)]
    rw [hD]
    exact map_enum_getElem l _ k hk

theorem analogProcessCode_region (l : List AnalogControl) (k : Nat) (hk : k < l.length) :
    (analogProcessCode l)[1 + k]? = some (controlProcessLine k) := by
  rw [analogProcessCode_eq]
  set A1 := ["// process analog_controls"] with hA1
  set B := l.enum.map (fun p => controlProcessLine p.1) with hB
  have h1 : 1 + k = A1.length + k := by simp [hA1]
  rw [h1, getElem?_skip A1 B k, hB]
  exact map_enum_getElem l _ k hk

/-- C1: for every hardware description — with no restriction on either list
being non-empty — the declared analog array size equals
count(analog_controls) + count(cv_inputs), and the generated per-entry
references (channel configs, Init calls, Process calls) index the entries in
concatenation order: the reference at slot `i < count(analog_controls)` is
built from `analog_controls[i]`, and the reference at slot
`count(analog_controls) + j` from `cv_inputs[j]`. -/
theorem analog_merged_count_and_order
    (analog_controls cv_inputs : List AnalogControl) :
    (analogDeclCode (analog_controls ++ cv_inputs))[1]? =
        some ("AnalogControl controls["
          ++ toString (analog_controls.length + cv_inputs.length) ++ "];")
    ∧ (analog_controls ++ cv_inputs ≠ [] →
        generateAnalogControls (some analog_controls) (some cv_inputs)
            Context.DECLARATION =
          String.intercalate "\n    " (analogDeclCode (analog_controls ++ cv_inputs))
        ∧ generateAnalogControls (some analog_controls) (some cv_inputs)
            Context.INITIALIZATION =
          String.intercalate "\n        " (analogInitCode (analog_controls ++ cv_inputs))
        ∧ generateAnalogControls (some analog_controls) (some cv_inputs)
            Context.PROCESSING =
          String.intercalate "\n        "
            (analogProcessCode (analog_controls ++ cv_inputs)))
    ∧ (∀ i, ∀ hi : i < analog_controls.length,
        (analogInitCode (analog_controls ++ cv_inputs))[2 + i]? =
          some (adcCfgLine i analog_controls[i])
        ∧ (analogInitCode (analog_controls ++ cv_inputs))[3
              + (analog_controls ++ cv_inputs).length + i]? =
          some (controlInitLine i analog_controls[i])
        ∧ (analogProcessCode (analog_controls ++ cv_inputs))[1 + i]? =
          some (controlProcessLine i))
    ∧ (∀ j, ∀ hj : j < cv_inputs.length,
        (analogInitCode (analog_controls ++ cv_inputs))[2
              + (analog_controls.length + j)]? =
          some (adcCfgLine (analog_controls.length + j) cv_inputs[j])
        ∧ (analogInitCode (analog_controls ++ cv_inputs))[3
              + (analog_controls ++ cv_inputs).length
              + (analog_controls.length + j)]? =
          some (controlInitLine (analog_controls.length + j) cv_inputs[j])
        ∧ (analogProcessCode (analog_controls ++ cv_inputs))[1
              + (analog_controls.length + j)]? =
          some (controlProcessLine (analog_controls.length + j))) := by
  refine ⟨?_, ?_, ?_, ?_⟩
  · rw [analogDeclCode_eq]
    simp
  · intro hne0
    have hne : (analog_controls ++ cv_inputs).isEmpty = false := by
      cases hcc : analog_controls ++ cv_inputs with
      | nil => exact absurd hcc hne0
      | cons a t => rfl
    exact ⟨by simp [generateAnalogControls, hne], by simp [generateAnalogControls, hne],
      by simp [generateAnalogControls, hne]⟩
  · intro i hi
    have hli : i < (analog_controls ++ cv_inputs).length := by
      rw [List.length_append]; omega
    have hgi : (analog_controls ++ cv_inputs)[i] = analog_controls[i] :=
      List.getElem_append_left hi
    have r1 := (analogInitCode_region (analog_controls ++ cv_inputs) i hli).1
    have r3 := (analogInitCode_region (analog_controls ++ cv_inputs) i hli).2
    rw [hgi] at r1 r3
    exact ⟨r1, r3, analogProcessCode_region (analog_controls ++ cv_inputs) i hli⟩
  · intro j hj
    have hlj : analog_controls.length + j < (analog_controls ++ cv_inputs).length := by
      rw [List.length_append]; omega
    have hgj : (analog_controls ++ cv_inputs)[analog_controls.length + j] =
        cv_inputs[j] := by
      have h3 : (analog_controls ++ cv_inputs)[analog_controls.length + j]? =
          cv_inputs[j]? :=
        getElem?_skip analog_controls cv_inputs j
      rw [List.getElem?_eq_getElem hlj, List.getElem?_eq_getElem hj] at h3
      exact Option.some.inj h3
    have r2 := (analogInitCode_region (analog_controls ++ cv_inputs)
      (analog_controls.length + j) hlj).1
    have r4 := (analogInitCode_region (analog_controls ++ cv_inputs)
      (analog_controls.length + j) hlj).2
    rw [hgj] at r2 r4
    exact ⟨r2, r4, analogProcessCode_region (analog_controls ++ cv_inputs)
      (analog_controls.length + j) hlj⟩

theorem analog_merged_count_and_order_witness :
    (acW ++ cvW ≠ []) ∧ 0 < cvW.length ∧
    (analogDeclCode (acW ++ cvW))[1]? =
      some ("AnalogControl controls[" ++ toString (acW.length + cvW.length) ++ "];") ∧
    (analogInitCode (acW ++ cvW))[2 + (acW.length + 0)]? =
      some (adcCfgLine (acW.length + 0) cvW[0]) := by
  have h := analog_merged_count_and_order acW cvW
  exact ⟨by decide, by decide, h.1, ((h.2.2.2) 0 (by decide)).1⟩

theorem oledDeclCode_eq (ds : List OledDisplay) :
    oledDeclCode ds =
      ["// OLED display declaration"] ++ ds.enum.map (fun p => oledDeclLine p.1 p.2) := by
  unfold oledDeclCode
  simp only [foldl_push_eq]

theorem oledInitCode_eq (ds : List OledDisplay) :
    oledInitCode ds =
      ["// BEGIN - OLED display initialization"]
      ++ ((ds.enum.map (fun p => oledInitEntryLines p.1 p.2)).flatten
      ++ ["// END - OLED display initialization"]) := by
  unfold oledInitCode
  simp only [foldl_append_eq]
  simp [List.append_assoc]

/-- C6: in both the declaration and the initialization fragments, the
per-entry display variable name is the base name `display` unsuffixed for
index 0 and `display` concatenated with the index for every index greater
than 0; entry `i` of the declaration fragment and the final `Init` call of
entry `i`'s initialization lines both use that name. -/
theorem display_variable_naming (ds : List OledDisplay) (oled_display : OledDisplay)
    (i : Nat) (hi : i < ds.length) :
    (oledDeclCode ds)[1 + i]? = some (oledDeclLine i ds[i])
    ∧ (oledInitEntryLines i oled_display).getLast? = some (oledInitCallLine i)
    ∧ oledDeclLine i ds[i] =
        "OledDisplay<" ++ jsStr (ds[i]).driver_name ++ "> display" ++ displaySuffix i ++ ";"
    ∧ oledInitCallLine i =
        "display" ++ displaySuffix i ++ ".Init(display_config" ++ toString i ++ ");"
    ∧ (generateOledDisplays (some ds) Context.DECLARATION).1 =
        String.intercalate "\n    " (oledDeclCode (setDriverNames ds))
    ∧ (generateOledDisplays (some ds) Context.INITIALIZATION).1 =
        String.intercalate "\n        " (oledInitCode (setDriverNames ds))
    ∧ displaySuffix 0 = "" ∧ (i ≠ 0 → displaySuffix i = toString i) := by
  have hne : ds.isEmpty = false := by
    cases ds with
    | nil => simp at hi
    | cons a t => rfl
  refine ⟨?_, ?_, rfl, rfl, by simp [generateOledDisplays, hne],
    by simp [generateOledDisplays, hne], rfl, fun h0 => by simp [displaySuffix, h0]⟩
  · rw [oledDeclCode_eq]
    have h1 : 1 + i = (["// OLED display declaration"] : List String).length + i := by simp
    rw [h1, getElem?_skip ["// OLED display declaration"]
      (ds.enum.map (fun p => oledDeclLine p.1 p.2)) i]
    exact map_enum_getElem ds _ i hi
  · simp only [oledInitEntryLines]
    exact List.getLast?_concat _

theorem display_variable_naming_witness :
    1 < (setDriverNames dsW).length
    ∧ (oledDeclCode (setDriverNames dsW))[1 + 1]? =
        some (oledDeclLine 1 ((setDriverNames dsW).get ⟨1, by decide⟩))
    ∧ displaySuffix 0 = "" ∧ displaySuffix 1 = toString 1 := by
  have h := display_variable_naming (setDriverNames dsW)
    ((setDriverNames dsW).get ⟨0, by decide⟩) 1 (by decide)
  exact ⟨by decide, h.1, h.2.2.2.2.2.2.1, h.2.2.2.2.2.2.2 (by decide)⟩

theorem switchDeclCode_eq (l : List Switch) :
    switchDeclCode l =
      ["//  switches declaration", "Switch switches[" ++ toString l.length ++ "];"]
      ++ (l.enum.map (fun p =>
            p.2.labels.map (fun label => switchLabelLine label p.1))).flatten := by
  unfold switchDeclCode
  simp only [foldl_push_eq, foldl_append_eq]
  rfl

theorem encoderDeclCode_eq (l : List Encoder) :
    encoderDeclCode l =
      ["//  encoders declaration", "Encoder encoders[" ++ toString l.length ++ "];",
       "Encoder& encoder = encoders[0];"]
      ++ (l.enum.map (fun p =>
            p.2.labels.map (fun label => encoderLabelLine label p.1))).flatten := by
  unfold encoderDeclCode
  simp only [foldl_push_eq, foldl_append_eq]
  rfl

theorem ledDeclCode_eq (l : List Led) :
    ledDeclCode l =
      ["//  leds declaration", "Led leds[" ++ toString l.length ++ "];"]
      ++ (l.enum.map (fun p =>
            p.2.labels.map (fun label => ledLabelLine label p.1))).flatten := by
  unfold ledDeclCode
  simp only [foldl_push_eq, foldl_append_eq]
  rfl

theorem rgbLedDeclCode_eq (l : List RgbLed) :
    rgbLedDeclCode l =
      ["//  rgb_leds declaration", "RgbLed rgb_leds[" ++ toString l.length ++ "];"]
      ++ (l.enum.map (fun p =>
            p.2.labels.map (fun label => rgbLedLabelLine label p.1))).flatten := by
  unfold rgbLedDeclCode
  simp only [foldl_push_eq, foldl_append_eq]
  rfl

theorem gateInputDeclCode_eq (l : List GateInput) :
    gateInputDeclCode l =
      ["//gate_inputs declaration", "GateIn gate_inputs[" ++ toString l.length ++ "];"]
      ++ (l.enum.map (fun p =>
            p.2.labels.map (fun label => gateInputLabelLine label p.1))).flatten := by
  unfold gateInputDeclCode
  simp only [foldl_push_eq, foldl_append_eq]
  rfl

/-- C9: for every kind with labels (the merged analog kind, encoders,
switches, LEDs, RGB LEDs, gate inputs), the label lines of the declaration
fragment are exactly the in-order flattening over entries (in list order) of
one alias-to-slot reference per alias (in label-list order), each binding the
alias to that entry's array index; a switch entry with label "foo" at index 0
yields the binding `Switch& foo = switches[0];`. -/
theorem label_alias_slot_bindings (switches : List Switch)
    (analog_controls cv_inputs : List AnalogControl) (encoders : List Encoder)
    (leds : List Led) (rgb_leds : List RgbLed) (gate_inputs : List GateInput)
    (i : Nat) (hi : i < switches.length) (label : String)
    (hlabel : label ∈ switches[i].labels) :
    switchDeclCode switches =
      ["//  switches declaration",
       "Switch switches[" ++ toString switches.length ++ "];"]
      ++ (switches.enum.map (fun p =>
            p.2.labels.map (fun l2 => switchLabelLine l2 p.1))).flatten
    ∧ switchLabelLine label i ∈ switchDeclCode switches
    ∧ analogDeclCode (analog_controls ++ cv_inputs) =
        ["// analog_controls declaration",
         "AnalogControl controls["
           ++ toString (analog_controls ++ cv_inputs).length ++ "];"]
        ++ ((analog_controls ++ cv_inputs).enum.map (fun p =>
              p.2.labels.map (fun l2 => analogLabelLine l2 p.1))).flatten
    ∧ encoderDeclCode encoders =
        ["//  encoders declaration",
         "Encoder encoders[" ++ toString encoders.length ++ "];",
         "Encoder& encoder = encoders[0];"]
        ++ (encoders.enum.map (fun p =>
              p.2.labels.map (fun l2 => encoderLabelLine l2 p.1))).flatten
    ∧ ledDeclCode leds =
        ["//  leds declaration", "Led leds[" ++ toString leds.length ++ "];"]
        ++ (leds.enum.map (fun p =>
              p.2.labels.map (fun l2 => ledLabelLine l2 p.1))).flatten
    ∧ rgbLedDeclCode rgb_leds =
        ["//  rgb_leds declaration",
         "RgbLed rgb_leds[" ++ toString rgb_leds.length ++ "];"]
        ++ (rgb_leds.enum.map (fun p =>
              p.2.labels.map (fun l2 => rgbLedLabelLine l2 p.1))).flatten
    ∧ gateInputDeclCode gate_inputs =
        ["//gate_inputs declaration",
         "GateIn gate_inputs[" ++ toString gate_inputs.length ++ "];"]
        ++ (gate_inputs.enum.map (fun p =>
              p.2.labels.map (fun l2 => gateInputLabelLine l2 p.1))).flatten
    ∧ generateSwitches (some switches) Context.DECLARATION =
        String.intercalate "\n    " (switchDeclCode switches)
    ∧ switchLabelLine label i =
        "Switch& " ++ label ++ " = switches[" ++ toString i ++ "];" := by
  have hne : switches.isEmpty = false := by
    cases switches with
    | nil => simp at hi
    | cons a t => rfl
  refine ⟨switchDeclCode_eq switches, ?_, analogDeclCode_eq (analog_controls ++ cv_inputs),
    encoderDeclCode_eq encoders, ledDeclCode_eq leds, rgbLedDeclCode_eq rgb_leds,
    gateInputDeclCode_eq gate_inputs, by simp [generateSwitches, hne], rfl⟩
  rw [switchDeclCode_eq]
  refine List.mem_append.2 (Or.inr ?_)
  refine List.mem_flatten.2
    ⟨switches[i].labels.map (fun l2 => switchLabelLine l2 i), ?_, ?_⟩
  · refine List.mem_map.2 ⟨(i, switches[i]), ?_, rfl⟩
    have h := enum_getElem switches i
    rw [List.getElem?_eq_getElem hi] at h
    exact List.getElem?_mem h
  · exact List.mem_map.2 ⟨label, hlabel, rfl⟩

theorem label_alias_slot_bindings_witness :
    0 < swW.length ∧ "foo" ∈ (swW.get ⟨0, by decide⟩).labels
    ∧ switchLabelLine "foo" 0 ∈ switchDeclCode swW
    ∧ switchLabelLine "foo" 0 = "Switch& foo = switches[0];" := by
  have h := label_alias_slot_bindings swW [] [] [] [] [] [] 0 (by decide) "foo" (by decide)
  exact ⟨by decide, by decide, h.2.1, by decide⟩

theorem toString_str (s : String) : toString s = s := rfl

/-- C3 (amended): the artifact contains the declaration fragments in the
fixed order {analog(+CV input), CV output, encoder, gate input, gate output,
LED, MIDI handler, display, RGB LED, switch}, followed by the initialization
fragments, which however appear in the order {analog(+CV input), CV output,
gate input, gate output, encoder, LED, MIDI handler, display, RGB LED,
switch}: the encoder initialization fragment comes after the gate fragments,
not in the declaration order. -/
theorem fragment_order_in_artifact (hd : HardwareDescription) :
    containsInOrder (generateCustomHardwareImpl hd).1
      [generateAnalogControls hd.analog_controls hd.cv_inputs Context.DECLARATION,
       generateCvOutputs hd.cv_outputs Context.DECLARATION,
       generateEncoders hd.encoders Context.DECLARATION,
       generateGateInputs hd.gate_inputs Context.DECLARATION,
       generateGateOutputs hd.gate_inputs Context.DECLARATION,
       generateLeds hd.leds Context.DECLARATION,
       generateMidiHandlers hd.midi_handlers Context.DECLARATION,
       (generateOledDisplays (generateOledDisplays hd.oled_displays
          Context.INCLUDE).2 Context.DECLARATION).1,
       generateRgbLeds hd.rgb_leds Context.DECLARATION,
       generateSwitches hd.switches Context.DECLARATION,
       generateAnalogControls hd.analog_controls hd.cv_inputs Context.INITIALIZATION,
       generateCvOutputs hd.cv_outputs Context.INITIALIZATION,
       generateGateInputs hd.gate_inputs Context.INITIALIZATION,
       generateGateOutputs hd.gate_inputs Context.INITIALIZATION,
       generateEncoders hd.encoders Context.INITIALIZATION,
       generateLeds hd.leds Context.INITIALIZATION,
       generateMidiHandlers hd.midi_handlers Context.INITIALIZATION,
       (generateOledDisplays (generateOledDisplays (generateOledDisplays
          hd.oled_displays Context.INCLUDE).2 Context.DECLARATION).2
          Context.INITIALIZATION).1,
       generateRgbLeds hd.rgb_leds Context.INITIALIZATION,
       generateSwitches hd.switches Context.INITIALIZATION] := by
  refine ⟨["\n\n#include \"daisy_seed.h\"\n"
      ++ (generateOledDisplays hd.oled_displays Context.INCLUDE).1
      ++ "\n\nusing namespace daisy;\n\ntypedef struct \x7b\n    DaisySeed seed;\n  \n    ",
    "\n\n    ", "\n    \n    ", "\n\n    ", "\n\n    ", "\n\n    ", "\n\n    ",
    "\n\n    ", "\n    \n    ", "\n\n    ",
    "\n\n    void Init(bool boost) \n    \x7b\n        seed.Configure();\n        seed.Init(boost);\n\n        ",
    "\n        \n        ", "\n\n        ", "\n\n        ", "\n\n        ",
    "\n\n        ", "\n\n        ", "\n\n        ", "\n\n        ", "\n\n        ",
    "\n    \x7d\n\n    void ProcessAnalogControls()\n    \x7b\n        "
      ++ generateAnalogControls hd.analog_controls hd.cv_inputs Context.PROCESSING
      ++ "\n    \x7d\n\n    void ProcessDigitalControls()\n    \x7b\n        "
      ++ generateEncoders hd.encoders Context.PROCESSING
      ++ "\n\n        "
      ++ generateSwitches hd.switches Context.PROCESSING
      ++ "\n    \x7d\n\n    inline void ProcessAllControls()\n    \x7b\n        ProcessAnalogControls();\n        ProcessDigitalControls();\n    \x7d\n\n    void UpdateLeds()\n    \x7b\n      "
      ++ generateLeds hd.leds Context.PROCESSING
      ++ "\n      "
      ++ generateRgbLeds hd.rgb_leds Context.PROCESSING
      ++ "\n    \x7d\n\n  \x7d Daisy;\n  "], by simp, ?_⟩
  simp only [generateCustomHardwareImpl, interleave]
  simp [String.append_assoc, toString_str, String.join, String.empty_append]

set_option maxRecDepth 100000 in
/-- C3 (counterexample): for the document with one encoder and one gate
input, the declaration section lists the encoder fragment before the
gate-input fragment, but the initialization routine lists the gate-input
fragment before the encoder fragment — the initialization order is not the
declaration order, and the encoder initialization fragment does not precede
the gate-input one as the claimed fixed order requires. -/
theorem init_order_counterexample :
    (ltPos outC3 "//  encoders declaration" "//gate_inputs declaration"
      && ltPos outC3 "// BEGIN - gate_inputs initialization"
           "// BEGIN - encoders initialization"
      && !(ltPos outC3 "// BEGIN - encoders initialization"
           "// BEGIN - gate_inputs initialization")) = true := by decide

end Oopsy
